import Mathlib

/-!
Shallow embedding of the broker-rating ingestion pipeline
(`automation/news_fetcher.py`, `automation/analyzer.py`,
`automation/database.py`, `automation/job.py`, and `app.py`).

External effects (Google News search, the two LLM providers, SQLite row
storage, `json.loads`, `dateparser.parse`, wall-clock time) are modelled as
explicit oracle parameters or explicit state; machine floats that are only
passed through unchanged are modelled as `Rat`.  Python exceptions are
modelled with `Option`/`Except` values that are propagated or swallowed
exactly where the source has `try`/`except`.
-/

/-! ## Python string primitives used by the source -/

/-- One rewrite pass of Python `s.replace(pat, repl)` (all non-overlapping
occurrences, left to right), written with explicit fuel so that it is
structurally recursive; `fuel ≥ l.length` makes the fuel irrelevant. -/
def replaceFuel (pat repl : List Char) : Nat → List Char → List Char
  | _, [] => []
  | 0, l => l
  | fuel + 1, c :: cs =>
    if pat.isPrefixOf (c :: cs) then
      repl ++ replaceFuel pat repl fuel (cs.drop (pat.length - 1))
    else
      c :: replaceFuel pat repl fuel cs

/-- Python `s.replace(pat, repl)` on strings (for the nonempty patterns the
source uses). -/
def pyReplace (s pat repl : String) : String :=
  ⟨replaceFuel pat.data repl.data s.data.length s.data⟩

/-- Python `s.upper()` (the source only upper-cases ASCII company names). -/
def pyUpper (s : String) : String :=
  ⟨s.data.map Char.toUpper⟩

/-- Python `s.lower()` (sources and text blobs in the retriever). -/
def pyLower (s : String) : String :=
  ⟨s.data.map Char.toLower⟩

/-- ASCII whitespace for Python `str.strip()`. -/
def isPySpace (c : Char) : Bool :=
  c = ' ' || c = '\t' || c = '\n' || c = '\x0d' || c = '\x0b' || c = '\x0c'

/-- Python `s.strip()`. -/
def pyStrip (s : String) : String :=
  ⟨((s.data.dropWhile isPySpace).reverse.dropWhile isPySpace).reverse⟩

/-- Python substring containment `pat in hay`. -/
def inChars (pat : List Char) : List Char → Bool
  | [] => pat.isEmpty
  | c :: cs => pat.isPrefixOf (c :: cs) || inChars pat cs

/-- Python `pat in hay` on strings. -/
def pyIn (pat hay : String) : Bool :=
  inChars pat.data hay.data

/-- The part of `l` strictly before the first occurrence of `sep`
(all of `l` when `sep` does not occur): Python `l.split(sep)[0]`. -/
def splitHead (sep : List Char) : List Char → List Char
  | [] => []
  | c :: cs => if sep.isPrefixOf (c :: cs) then [] else c :: splitHead sep cs

/-- Python `s.split(sep)[0]` on strings. -/
def pySplitHead (s sep : String) : String :=
  ⟨splitHead sep.data s.data⟩

/-! ## JSON values (the shape of `json.loads` output / Python `None`) -/

/-- A parsed JSON value; `null` doubles as Python `None`, so a dict `.get`
miss and a stored JSON null coincide exactly as they do in Python. -/
inductive JValue where
  | null : JValue
  | bool : Bool → JValue
  | num : Rat → JValue
  | str : String → JValue
  | arr : List JValue → JValue
  | obj : List (String × JValue) → JValue

mutual

/-- Python `==` on parsed JSON values. -/
def jeq : JValue → JValue → Bool
  | .null, .null => true
  | .bool a, .bool b => a == b
  | .num a, .num b => a == b
  | .str a, .str b => a == b
  | .arr as, .arr bs => jeqList as bs
  | .obj as, .obj bs => jeqKVs as bs
  | _, _ => false

/-- Python `==` on JSON arrays, elementwise. -/
def jeqList : List JValue → List JValue → Bool
  | [], [] => true
  | a :: as, b :: bs => jeq a b && jeqList as bs
  | _, _ => false

/-- Python `==` on JSON objects (as ordered key-value lists). -/
def jeqKVs : List (String × JValue) → List (String × JValue) → Bool
  | [], [] => true
  | (k1, v1) :: as, (k2, v2) :: bs => k1 == k2 && jeq v1 v2 && jeqKVs as bs
  | _, _ => false

end

/-- Python truthiness of a value coming out of `json.loads` (or `None`). -/
def jTruthy : JValue → Bool
  | .null => false
  | .bool b => b
  | .num q => q ≠ 0
  | .str s => s ≠ ""
  | .arr xs => !xs.isEmpty
  | .obj kvs => !kvs.isEmpty

/-! ## Data model (`automation/database.py`, `init_db` schema) -/

/-- A row of the `news_articles` table. -/
structure ArticleRow where
  id : Nat
  title : String
  url : String
  published_date : String
  source : String
  raw_content : String
  fetched_at : String
deriving DecidableEq

/-- A row of the `stock_ratings` table (`target_price` is a SQLite REAL or
NULL, modelled as `Option Rat`). -/
structure RatingRow where
  id : Nat
  article_id : Nat
  stock_ticker : String
  stock_name : String
  rating : String
  broker : String
  target_price : Option Rat
  entry_date : String
deriving DecidableEq

/-- A row of the `known_stocks` master table. -/
structure KnownStock where
  symbol : String
  company_name : String
  isin : String
deriving DecidableEq

/-- The SQLite database state.  `next_article_id` / `next_rating_id` model
SQLite rowid assignment for the integer primary keys; list order models
rowid order (the order `rows_where` returns rows in). -/
structure DB where
  news_articles : List ArticleRow
  stock_ratings : List RatingRow
  known_stocks : List KnownStock
  next_article_id : Nat
  next_rating_id : Nat
deriving DecidableEq

/-! ## Persistence layer (`automation/database.py`) -/

/-- `save_article(db, title, url, published_date, source, raw_content)`.
The insert raises `sqlite3.IntegrityError` exactly when a row with the same
`url` exists (the unique index on `url`); that error is caught and resolved
by re-reading the existing row's id.  The outer `except Exception` returns
`None`; in this pure model the only way to reach it is the (unreachable)
index error on the re-read.  `now` is the `datetime.now(pytz.utc)` value
stored as `fetched_at`.  Returns (`art_id` or `None`, new state). -/
def save_article (db : DB) (title url published_date source raw_content : String)
    (now : String) : Option Nat × DB :=
  if db.news_articles.any (fun a => decide (a.url = url)) then
    match db.news_articles.find? (fun a => decide (a.url = url)) with
    | some a => (some a.id, db)
    | none => (none, db)
  else
    let row : ArticleRow :=
      { id := db.next_article_id, title := title, url := url,
        published_date := published_date, source := source,
        raw_content := raw_content, fetched_at := now }
    (some db.next_article_id,
     { db with news_articles := db.news_articles ++ [row],
               next_article_id := db.next_article_id + 1 })

/-- Whether a `stock_ratings` row matches the dedup triple, i.e. the
`rows_where("article_id = ? AND stock_name = ? AND broker = ?")` filter. -/
def tripleMatches (row : RatingRow) (article_id : Nat) (stock_name broker : String) : Bool :=
  decide (row.article_id = article_id) && decide (row.stock_name = stock_name)
    && decide (row.broker = broker)

/-- `save_rating(db, article_id, stock_name, rating, target_price, broker)`:
insert only if no existing row matches `(article_id, stock_name, broker)`,
otherwise a no-op.  `stock_ticker` is `stock_name.upper().replace(" ", "")`;
`entry_date` is the caller-side `datetime.now().date().isoformat()`. -/
def save_rating (db : DB) (article_id : Nat) (stock_name rating : String)
    (target_price : Option Rat) (broker : String) (entry_date : String) : DB :=
  let existing := db.stock_ratings.filter
    (fun row => tripleMatches row article_id stock_name broker)
  if existing.isEmpty then
    { db with
      stock_ratings := db.stock_ratings ++ [{
        id := db.next_rating_id,
        article_id := article_id,
        stock_ticker := pyReplace (pyUpper stock_name) " " "",
        stock_name := stock_name,
        rating := rating,
        broker := broker,
        target_price := target_price,
        entry_date := entry_date }],
      next_rating_id := db.next_rating_id + 1 }
  else
    db

/-! ## Fact extractor (`automation/analyzer.py`) -/

/-- The `StockRating` class: exactly the three attributes set in
`__init__`, holding whatever JSON values the model returned (Python is
untyped here; `null` is Python `None`).  The class defines no other
attribute, so accessing `r.currency` on an instance raises
`AttributeError`. -/
structure StockRating where
  stock_name : JValue
  rating : JValue
  target_price : JValue

/-- `get_prompt(text, broker_name)`: the single prompt f-string sent to
both providers (literal braces and apostrophes written as escapes). -/
def get_prompt (text broker_name : String) : String :=
  "\n    You are a financial news analyzer specializing in \x27" ++ broker_name
    ++ "\x27 equity research. \n    Analyze the following news snippet and extract structured data about stock ratings/recommendations.\n    \n    News Snippet:\n    "
    ++ text
    ++ "\n    \n    Extract the following for each stock mentioned:\n    1. Stock Name: Only specific COMPANY names (e.g. \x27Tata Motors\x27, \x27Zomato\x27). \n       - DO NOT extract sector names (e.g. \x27Auto\x27, \x27Banks\x27, \x27Hotels\x27).\n       - DO NOT extract time/days (e.g. \x27Monday\x27, \x27January\x27).\n       - Normalize: Remove \x27Ltd\x27, \x27Limited\x27, \x27India\x27 suffixes.\n    2. Rating: This is the CORE task. \n       - Look for words like \x27Buy\x27, \x27Sell\x27, \x27Hold\x27, \x27Accumulate\x27 (map to Buy), \x27Underperform\x27 (map to Sell), \x27Outperform\x27 (map to Buy).\n       - BIFURCATE DECISIVELY: If the article discusses a \"Top Pick\", \"Favorite\", or \"Upgrade\", mark as \x27Buy\x27. If it discusses \"Downgrade\" or \"Caution\", mark as \x27Sell\x27.\n       - Only use \x27Unknown\x27 if there is absolutely no sentiment or recommendation expressed.\n    3. Target Price: Numeric per-share value in INR. \n       - IMPORTANT: Do NOT extract total valuation or market cap figures (e.g. \x271 lakh crore\x27, \x2750 billion\x27).\n       - If the price seems like a total monetary value rather than a per-share target, set null.\n       - If not stated, set null.\n    \n    Return ONLY a raw JSON list of objects. No preamble, no markdown.\n    Example: \n    [\n        \x7b\"stock_name\": \"Tata Motors\", \"rating\": \"Buy\", \"target_price\": 1200.0\x7d\n    ]\n    "

/-- `analyze_with_groq(text, broker_name)`: the Groq provider modelled as an
oracle from the prompt message content to the response content; `none`
covers a missing `GROQ_API_KEY` and every exception the `try` catches
(rate limits included), all of which make the function return `None`. -/
def analyze_with_groq (groq : String → Option String) (text broker_name : String) :
    Option String :=
  (groq (get_prompt text broker_name)).map pyStrip

/-- `analyze_with_openai(text, broker_name)`: same contract for the OpenAI
fallback provider. -/
def analyze_with_openai (openai : String → Option String) (text broker_name : String) :
    Option String :=
  (openai (get_prompt text broker_name)).map pyStrip

/-- Python falsiness of a `str`-or-`None` variable (`if not response_content`). -/
def pyFalsy : Option String → Bool
  | none => true
  | some s => decide (s = "")

/-- Python `for item in data` on a `json.loads` result: lists yield their
elements, strings their characters, dicts their keys; numbers, booleans and
`None` raise `TypeError`. -/
def pyIterItems : JValue → Except Unit (List JValue)
  | .arr xs => .ok xs
  | .str s => .ok (s.data.map (fun c => .str ⟨[c]⟩))
  | .obj kvs => .ok (kvs.map (fun kv => .str kv.1))
  | _ => .error ()

/-- Python `item.get(key, dflt)`: only dicts have `.get`; anything else
raises `AttributeError`. -/
def dictGet (item : JValue) (key : String) (dflt : JValue) : Except Unit JValue :=
  match item with
  | .obj kvs => .ok (((kvs.find? (fun kv => decide (kv.1 = key))).map (fun kv => kv.2)).getD dflt)
  | _ => .error ()

/-- The deduplication loop of `analyze_article`: walk the parsed items,
keep the first occurrence per `stock_name`, drop falsy or `"Unknown"`
names.  An `.arr`/`.obj` name reaches the `not in seen_stocks` set test and
raises `TypeError` (unhashable); any error inside the loop is the `.error`
case, caught by the enclosing `try`. -/
def dedupGo : List JValue → List JValue → List StockRating → Except Unit (List StockRating)
  | [], _, ratings => .ok ratings
  | item :: rest, seen_stocks, ratings =>
    match dictGet item "stock_name" .null with
    | .error e => .error e
    | .ok s_name =>
      if jTruthy s_name = false then
        dedupGo rest seen_stocks ratings
      else if jeq s_name (.str "Unknown") then
        dedupGo rest seen_stocks ratings
      else
        match s_name with
        | .arr _ => .error ()
        | .obj _ => .error ()
        | _ =>
          if seen_stocks.any (jeq s_name) then
            dedupGo rest seen_stocks ratings
          else
            match dictGet item "rating" (.str "Unknown"),
                  dictGet item "target_price" .null with
            | .ok rating, .ok target_price =>
              dedupGo rest (seen_stocks ++ [s_name])
                (ratings ++ [⟨s_name, rating, target_price⟩])
            | .error e, _ => .error e
            | _, .error e => .error e

/-- The tail of `analyze_article` from `if not response_content:` onward,
as a function of the provider content that won the fallback: empty-check,
markdown-fence stripping, `json.loads` (`json_loads s = none` models the
`ValueError` it raises on malformed input), dedup loop; every exception
inside the `try` yields `[]`. -/
def parse_response (json_loads : String → Option JValue)
    (response_content : Option String) : List StockRating :=
  if pyFalsy response_content then []
  else
    let cleaned := pyReplace (pyReplace (response_content.getD "") "```json" "") "```" ""
    match json_loads cleaned with
    | none => []
    | some data =>
      match pyIterItems data with
      | .error _ => []
      | .ok items =>
        match dedupGo items [] [] with
        | .ok ratings => ratings
        | .error _ => []

/-- `analyze_article(article_data, broker_name)`: try Groq, fall back to
OpenAI when the Groq content is falsy, return `[]` when both are falsy;
then process the winning response (`parse_response` is definitionally the
inlined tail of the function). -/
def analyze_article (groq openai : String → Option String)
    (json_loads : String → Option JValue) (title desc broker_name : String) :
    List StockRating :=
  let text := "Title: " ++ title ++ "\n" ++ "Description: " ++ desc
  let groq_content := analyze_with_groq groq text broker_name
  let response_content :=
    if pyFalsy groq_content then analyze_with_openai openai text broker_name
    else groq_content
  if pyFalsy response_content then []
  else
    let cleaned := pyReplace (pyReplace (response_content.getD "") "```json" "") "```" ""
    match json_loads cleaned with
    | none => []
    | some data =>
      match pyIterItems data with
      | .error _ => []
      | .ok items =>
        match dedupGo items [] [] with
        | .ok ratings => ratings
        | .error _ => []

/-- A well-formed fallback-provider response for the extractor, wrapped in
markdown code fences (literal braces written as escapes). -/
def c5Response : String :=
  "```json\n[\x7b\"stock_name\": \"Tata Motors\", \"rating\": \"Buy\", \"target_price\": 1200.0\x7d]\n```"

/-- The JSON value `json.loads` yields for `c5Response` once the fences
are stripped. -/
def c5Parsed : JValue :=
  .arr [.obj [("stock_name", .str "Tata Motors"), ("rating", .str "Buy"),
              ("target_price", .num 1200)]]

/-- A `json.loads` oracle that parses exactly the fence-stripped
`c5Response` and rejects everything else. -/
def c5JsonLoads : String → Option JValue :=
  fun s =>
    if s = "\n[\x7b\"stock_name\": \"Tata Motors\", \"rating\": \"Buy\", \"target_price\": 1200.0\x7d]\n"
    then some c5Parsed else none

/-! ## Job orchestrator (`automation/job.py`) -/

/-- Python exceptions that can escape `run_job` in this model. -/
inductive PyErr where
  | attributeError : PyErr
deriving DecidableEq

/-- An article dict as produced by `fetch_news` (`desc` defaults to `""`). -/
structure Article where
  title : String
  url : String
  published_date : String
  source : String
  desc : String
deriving DecidableEq

/-- The FTS cleanup in `run_job`:
`raw_name.replace(".", "").replace(",", "").replace("-", " ").replace("\"", "").replace("'", "")`. -/
def clean_stock_name (raw : String) : String :=
  pyReplace (pyReplace (pyReplace (pyReplace (pyReplace raw "." "") "," "") "-" " ")
    "\"" "") "\x27" ""

/-- The quoted FTS phrase `f'"{clean_name}"'`. -/
def search_term (clean_name : String) : String :=
  "\"" ++ clean_name ++ "\""

/-- One iteration of the `for r in ratings` loop of `run_job` on fact `r`:
validate the raw name against `known_stocks` (the FTS `search` call is an
oracle; `.error` is any exception it raises, caught by the surrounding
`try`), then on success reach
`save_rating(db, art_id, valid_name, r.rating, r.target_price, broker_name, currency=r.currency)`.
`StockRating` defines no `currency` attribute, so evaluating `r.currency`
raises `AttributeError` before the call is made (`save_rating` itself also
has no `currency` parameter); the loop body has no handler for it.
Returns (state, whether `new_ratings_count` was incremented, escaped
exception). -/
def process_fact (db : DB) (search : String → Except Unit (List KnownStock))
    (art_id : Nat) (broker_name : String) (r : StockRating) :
    DB × Bool × Option PyErr :=
  let valid_name : Option String :=
    match r.stock_name with
    | .str raw =>
      match search (search_term (clean_stock_name raw)) with
      | .ok (k :: _) => some k.company_name
      | .ok [] => none
      | .error _ => none
    | _ => none
  match valid_name with
  | some _ => (db, false, some PyErr.attributeError)
  | none => (db, false, none)

/-- The `for r in ratings` loop: process facts in order, stopping at the
first escaped exception.  Returns (state, number of increments of
`new_ratings_count`, escaped exception). -/
def run_facts (db : DB) (search : String → Except Unit (List KnownStock))
    (art_id : Nat) (broker_name : String) :
    List StockRating → DB × Nat × Option PyErr
  | [] => (db, 0, none)
  | r :: rs =>
    match process_fact db search art_id broker_name r with
    | (db1, added, some e) => (db1, if added then 1 else 0, some e)
    | (db1, added, none) =>
      let rest := run_facts db1 search art_id broker_name rs
      (rest.1, (if added then 1 else 0) + rest.2.1, rest.2.2)

/-- One iteration of the `for art in articles` loop of `run_job`:
`save_article`, skip on a `None` id, skip when `stock_ratings` already has
a row for `(art_id, broker_name)`, otherwise call the analyzer and run the
fact loop.  The third component records the `(art_id, broker)` pairs
passed to `analyze_article` (the calls the skip guard is meant to avoid). -/
def process_article (db : DB) (analyze : Article → String → List StockRating)
    (search : String → Except Unit (List KnownStock)) (broker_name : String)
    (now : String) (art : Article) :
    DB × Nat × List (Nat × String) × Option PyErr :=
  match save_article db art.title art.url art.published_date art.source art.desc now with
  | (none, db1) => (db1, 0, [], none)
  | (some art_id, db1) =>
    let existing_ratings := db1.stock_ratings.filter
      (fun row => decide (row.article_id = art_id) && decide (row.broker = broker_name))
    if existing_ratings.isEmpty then
      let ratings := analyze art broker_name
      let res := run_facts db1 search art_id broker_name ratings
      (res.1, res.2.1, [(art_id, broker_name)], res.2.2)
    else
      (db1, 0, [], none)

/-- The `for art in articles` loop, stopping at the first escaped
exception. -/
def run_articles (db : DB) (analyze : Article → String → List StockRating)
    (search : String → Except Unit (List KnownStock)) (broker_name : String)
    (now : String) : List Article → DB × Nat × List (Nat × String) × Option PyErr
  | [] => (db, 0, [], none)
  | art :: arts =>
    match process_article db analyze search broker_name now art with
    | (db1, n, calls, some e) => (db1, n, calls, some e)
    | (db1, n, calls, none) =>
      let rest := run_articles db1 analyze search broker_name now arts
      (rest.1, n + rest.2.1, calls ++ rest.2.2.1, rest.2.2.2)

/-- The literal `brokers` dict of `run_job` (insertion order preserved). -/
def brokers : List (String × List String) :=
  [("Jefferies",
     ["Jefferies India stock target",
      "Jefferies upgrade India stock",
      "Jefferies downgrade India stock",
      "Jefferies maintain buy India"]),
   ("JPMC",
     ["JP Morgan India stock target",
      "JP Morgan upgrade India stock",
      "JP Morgan overweight India stock",
      "J.P. Morgan India equity research"]),
   ("Goldman Sachs",
     ["Goldman Sachs India stock target",
      "Goldman Sachs upgrade India stock",
      "Goldman Sachs India equity research"]),
   ("ICICI Securities",
     ["ICICI Securities stock target buy",
      "ICICI Securities research report India",
      "ICICI Securities upgrade rating"]),
   ("Kotak",
     ["Kotak Institutional Equities stock target",
      "Kotak Securities buy rating India",
      "Kotak Investment Banking research"]),
   ("Axis Capital",
     ["Axis Capital India stock target",
      "Axis Capital research report",
      "Axis Capital buy rating"]),
   ("JM Financial",
     ["JM Financial stock target buy",
      "JM Financial research India",
      "JM Financial upgrade rating"])]

/-- `days_to_fetch = 2` in `run_job`. -/
def days_to_fetch : Nat := 2

/-- Result of a `run_job` invocation: final database, the
`new_ratings_count` summary, the `(article_id, broker)` pairs that were
passed to the analyzer, and the exception that escaped `run_job` (if any;
`none` means the job reached its terminal summary print). -/
structure RunResult where
  db : DB
  new_ratings_count : Nat
  analyzed : List (Nat × String)
  err : Option PyErr
deriving DecidableEq

/-- The `for broker_name, queries in brokers.items()` loop, stopping at the
first escaped exception. -/
def run_brokers (fetch : String → List String → Nat → List Article)
    (analyze : Article → String → List StockRating)
    (search : String → Except Unit (List KnownStock)) (now : String) (db : DB) :
    List (String × List String) → RunResult
  | [] => ⟨db, 0, [], none⟩
  | (broker_name, queries) :: rest =>
    let articles := fetch broker_name queries days_to_fetch
    match run_articles db analyze search broker_name now articles with
    | (db1, n, calls, some e) => ⟨db1, n, calls, some e⟩
    | (db1, n, calls, none) =>
      let r := run_brokers fetch analyze search now db1 rest
      ⟨r.db, n + r.new_ratings_count, calls ++ r.analyzed, r.err⟩

/-- `run_job()` over an initialized database state.  `fetch` is
`fetch_news` (total: it catches its per-query errors internally),
`analyze` is `analyze_article` (total, cf. the extractor model), `search`
is the `known_stocks` FTS oracle, `now` the wall clock. -/
def run_job (fetch : String → List String → Nat → List Article)
    (analyze : Article → String → List StockRating)
    (search : String → Except Unit (List KnownStock)) (now : String) (db : DB) :
    RunResult :=
  run_brokers fetch analyze search now db brokers

/-! ## News retriever (`automation/news_fetcher.py`) and `app.py` URL cleanup -/

/-- `clean_url(url)` from `app.py` (the same expression cleans URLs at
`news_fetcher.py:30`): `url.split('&ved=')[0].split('&usg=')[0]`. -/
def clean_url (url : String) : String :=
  pySplitHead (pySplitHead url "&ved=") "&usg="

/-- One Google News search result dict (`res`); every field is read with
`.get`, so each may be absent (`none`). -/
structure SearchResult where
  link : Option String
  title : Option String
  media : Option String
  date : Option String
  desc : Option String
deriving DecidableEq

/-- `BLACKLIST_SOURCES` from `fetch_news`. -/
def blacklist_sources : List String :=
  ["scanx.trade", "market screener", "marketscreener"]

/-- An article produced by `fetch_news`.  `title` is `String` rather than
`Option String` because a `None` title raises `TypeError` in the
`text_blob` concatenation before any append can happen; `url` stays
optional (a result without a link is appended with `url = None`). -/
structure FetchedArticle where
  title : String
  url : Option String
  published_date : String
  source : String
  desc : String
deriving DecidableEq

/-- Python truthiness of a `str`-or-`None` (`if raw_date`, `if url`). -/
def optTruthy : Option String → Bool
  | none => false
  | some s => decide (s ≠ "")

/-- Python `str(x)` on a `str`-or-`None`. -/
def pyStr : Option String → String
  | none => "None"
  | some s => s

/-- Lines 46–50 of `fetch_news`: `dateparser.parse` is the oracle `parse`
into an abstract datetime type `δ`, `now` is `datetime.now()`, `iso` is
`.isoformat()`.  `parsed_date = dateparser.parse(raw_date) if raw_date
else datetime.now()`; `published_date_str = parsed_date.isoformat() if
parsed_date else str(raw_date)`. -/
def published_date_of {δ : Type} (parse : String → Option δ) (now : δ)
    (iso : δ → String) (raw_date : Option String) : String :=
  let parsed_date : Option δ :=
    if optTruthy raw_date then parse (raw_date.getD "") else some now
  match parsed_date with
  | some d => iso d
  | none => pyStr raw_date

/-- One iteration of the `for res in results` loop of `fetch_news`
(lines 26–71): URL cleanup, in-run dedup against the `seen` sets, source
blacklist, date parsing, broker-token matching.  Returns
`.error` when the iteration raises (a `None` title makes
`article['title'] + " "` raise `TypeError`, caught by the per-query
handler), otherwise `.ok (appended article or none, seen_urls,
seen_titles)`. -/
def fetch_news_result {δ : Type} (parse : String → Option δ) (now : δ)
    (iso : δ → String) (broker_name : String)
    (seen_urls seen_titles : List (Option String)) (res : SearchResult) :
    Except Unit (Option FetchedArticle × List (Option String) × List (Option String)) :=
  let url : Option String :=
    if optTruthy res.link then some (clean_url (res.link.getD "")) else res.link
  let title := res.title
  let source := pyLower (res.media.getD "")
  if seen_urls.contains url || seen_titles.contains title then
    .ok (none, seen_urls, seen_titles)
  else if blacklist_sources.any (fun b => pyIn b source) then
    .ok (none, seen_urls, seen_titles)
  else
    let seen_urls' := seen_urls ++ [url]
    let seen_titles' := seen_titles ++ [title]
    let published_date_str := published_date_of parse now iso res.date
    match title with
    | none => .error ()
    | some t =>
      let article : FetchedArticle :=
        ⟨t, url, published_date_str, res.media.getD "Google News", res.desc.getD ""⟩
      let text_blob := pyLower (t ++ " " ++ res.desc.getD "")
      let matched :=
        if pyIn (pyLower broker_name) text_blob then true
        else if decide (broker_name = "JPMC")
            && (pyIn "jp morgan" text_blob || pyIn "jpmorgan" text_blob
                || pyIn "jpmc" text_blob) then true
        else if decide (broker_name = "Kotak")
            && (pyIn "kotak institutional equities" text_blob
                || pyIn "kotak securities" text_blob) then true
        else false
      .ok (if matched then some article else none, seen_urls', seen_titles')

/-! ## C10: ticker derivation in `save_rating` -/

/-- The derivation as the claim words it: the stock name converted to
upper case with every space character removed. -/
def upperNoSpaces (s : String) : String :=
  ⟨(s.data.map Char.toUpper).filter (fun c => decide (c ≠ ' '))⟩

/-! ## C4: rating uniqueness invariant -/

/-- At most one `stock_ratings` row matches any
`(article_id, stock_name, broker)` triple. -/
def RatingUnique (rows : List RatingRow) : Prop :=
  ∀ article_id stock_name broker,
    rows.countP (fun row => tripleMatches row article_id stock_name broker) ≤ 1

/-- A pending `save_rating` call (its argument tuple). -/
structure RatingReq where
  article_id : Nat
  stock_name : String
  rating : String
  target_price : Option Rat
  broker : String
  entry_date : String

/-- A sequence of `save_rating` calls executed in order. -/
def save_ratings (db : DB) (reqs : List RatingReq) : DB :=
  reqs.foldl
    (fun d q => save_rating d q.article_id q.stock_name q.rating q.target_price
      q.broker q.entry_date) db

/-! ## C1, C2, C9: the end-to-end scenario -/

/-- The Source Store row of the end-to-end scenario. -/
def tataRow : KnownStock := ⟨"TATAMOTORS", "Tata Motors", ""⟩

/-- The initialized database of the scenario (master list loaded, no
articles, no ratings). -/
def scenarioDB : DB := ⟨[], [], [tataRow], 1, 1⟩

/-- The single fetched article of the scenario. -/
def scenarioArticle : Article :=
  ⟨"Jefferies maintains Buy on Tata Motors, target 1200",
   "https://news.example.com/jefferies-tata-motors",
   "2025-06-01T08:00:00", "Example News", ""⟩

/-- `fetch_news` oracle of the scenario: one article for broker
"Jefferies", nothing for the other brokers. -/
def scenarioFetch : String → List String → Nat → List Article :=
  fun broker_name _ _ => if broker_name = "Jefferies" then [scenarioArticle] else []

/-- `analyze_article` oracle of the scenario: the single extracted fact
`{stock_name: "Tata Motors", rating: "Buy", target_price: 1200.0}`. -/
def scenarioAnalyze : Article → String → List StockRating :=
  fun _ _ => [⟨.str "Tata Motors", .str "Buy", .num 1200⟩]

/-- `known_stocks` FTS oracle of the scenario: the quoted phrase
`"Tata Motors"` matches the master row, everything else misses. -/
def scenarioSearch : String → Except Unit (List KnownStock) :=
  fun term => if term = "\"Tata Motors\"" then .ok [tataRow] else .ok []

/-- The scenario run. -/
def scenarioRun : RunResult :=
  run_job scenarioFetch scenarioAnalyze scenarioSearch "2025-06-01T09:00:00" scenarioDB

/-- A second broker's article, used to show the abort is not isolated. -/
def gsArticle : Article :=
  ⟨"Goldman Sachs maintains Buy on Tata Motors",
   "https://news.example.com/gs-tata-motors",
   "2025-06-01T08:30:00", "Example News", ""⟩

/-- Fetch oracle giving one article to "Jefferies" and one to
"Goldman Sachs". -/
def isolationFetch : String → List String → Nat → List Article :=
  fun broker_name _ _ =>
    if broker_name = "Jefferies" then [scenarioArticle]
    else if broker_name = "Goldman Sachs" then [gsArticle]
    else []

/-- The run used for the failure-isolation claim. -/
def isolationRun : RunResult :=
  run_job isolationFetch scenarioAnalyze scenarioSearch "2025-06-01T09:00:00" scenarioDB

/-- A second run of the orchestrator over the unchanged fetched articles,
starting from the state the first (aborted) run left behind. -/
def scenarioRun2 : RunResult :=
  run_job scenarioFetch scenarioAnalyze scenarioSearch "2025-06-02T09:00:00" scenarioRun.db

/-! ## C6: date-parse fallback -/

/-- A concrete search result whose date string the parser cannot handle. -/
def c6Result : SearchResult :=
  ⟨some "https://x/y", some "Jefferies sees upside", some "Example",
   some "last week", some ""⟩

/-- Forget a fetched article's published date (used to state that
retention does not depend on date parsing). -/
def eraseDate (a : FetchedArticle) : FetchedArticle :=
  { a with published_date := "" }

/-- `fetch_news_result` with the published-date string precomputed; equal
to it by definitional unfolding (`fetch_news_result_eq_kept`). -/
def fetch_news_kept (published_date_str : String) (broker_name : String)
    (seen_urls seen_titles : List (Option String)) (res : SearchResult) :
    Except Unit (Option FetchedArticle × List (Option String) × List (Option String)) :=
  let url : Option String :=
    if optTruthy res.link then some (clean_url (res.link.getD "")) else res.link
  let title := res.title
  let source := pyLower (res.media.getD "")
  if seen_urls.contains url || seen_titles.contains title then
    .ok (none, seen_urls, seen_titles)
  else if blacklist_sources.any (fun b => pyIn b source) then
    .ok (none, seen_urls, seen_titles)
  else
    let seen_urls' := seen_urls ++ [url]
    let seen_titles' := seen_titles ++ [title]
    match title with
    | none => .error ()
    | some t =>
      let article : FetchedArticle :=
        ⟨t, url, published_date_str, res.media.getD "Google News", res.desc.getD ""⟩
      let text_blob := pyLower (t ++ " " ++ res.desc.getD "")
      let matched :=
        if pyIn (pyLower broker_name) text_blob then true
        else if decide (broker_name = "JPMC")
            && (pyIn "jp morgan" text_blob || pyIn "jpmorgan" text_blob
                || pyIn "jpmc" text_blob) then true
        else if decide (broker_name = "Kotak")
            && (pyIn "kotak institutional equities" text_blob
                || pyIn "kotak securities" text_blob) then true
        else false
      .ok (if matched then some article else none, seen_urls', seen_titles')

/-! ## C7: URL canonicalization -/

theorem splitHead_isPrefix (sep l : List Char) : splitHead sep l <+: l := by
  induction l with
  | nil => simp [splitHead]
  | cons c cs ih =>
    simp only [splitHead]
    split
    · exact List.nil_prefix
    · exact List.cons_prefix_cons.mpr ⟨rfl, ih⟩

theorem splitHead_of_no_occur {sep : List Char} {l : List Char}
    (h : ∀ i, ¬ sep <+: l.drop i) : splitHead sep l = l := by
  induction l with
  | nil => rfl
  | cons c cs ih =>
    have hp : ¬ sep.isPrefixOf (c :: cs) = true := by
      intro hb
      exact h 0 (by simpa using List.isPrefixOf_iff_prefix.mp hb)
    simp only [splitHead, hp, if_false]
    exact congrArg (c :: ·) (ih (fun i => by simpa using h (i + 1)))

theorem splitHead_no_occur (sep : List Char) (hne : sep ≠ []) (l : List Char) :
    ∀ i, ¬ sep <+: (splitHead sep l).drop i := by
  induction l with
  | nil =>
    intro i h
    simp only [splitHead, List.drop_nil] at h
    exact hne (List.prefix_nil.mp h)
  | cons c cs ih =>
    intro i h
    by_cases hp : sep.isPrefixOf (c :: cs) = true
    · simp only [splitHead, hp, if_true, List.drop_nil] at h
      exact hne (List.prefix_nil.mp h)
    · simp only [splitHead, hp, if_false] at h
      cases i with
      | zero =>
        have hsub : (c :: splitHead sep cs) <+: (c :: cs) :=
          List.cons_prefix_cons.mpr ⟨rfl, splitHead_isPrefix sep cs⟩
        exact hp (List.isPrefixOf_iff_prefix.mpr ((List.drop_zero _ ▸ h).trans hsub))
      | succ j => exact ih j (by simpa using h)

theorem no_occur_of_isPrefix {sep m l : List Char} (hml : m <+: l)
    (h : ∀ i, ¬ sep <+: l.drop i) : ∀ i, ¬ sep <+: m.drop i :=
  fun i hp => h i (hp.trans (hml.drop i))

theorem splitHead_idem (sep : List Char) (hne : sep ≠ []) (l : List Char) :
    splitHead sep (splitHead sep l) = splitHead sep l :=
  splitHead_of_no_occur (splitHead_no_occur sep hne l)

/-- C7: the URL canonicalization `clean_url` (splitting off `&ved=` and
`&usg=` tracking suffixes) is idempotent, and on
`https://x/y?a=1&ved=abc&usg=def` it yields `https://x/y?a=1`. -/
theorem clean_url_canonicalization :
    (∀ url, clean_url (clean_url url) = clean_url url)
    ∧ clean_url "https://x/y?a=1&ved=abc&usg=def" = "https://x/y?a=1" := by
  constructor
  · intro url
    show pySplitHead (pySplitHead (pySplitHead (pySplitHead url "&ved=") "&usg=") "&ved=") "&usg="
      = pySplitHead (pySplitHead url "&ved=") "&usg="
    have hved : ("&ved=".data : List Char) ≠ [] := by decide
    have husg : ("&usg=".data : List Char) ≠ [] := by decide
    simp only [pySplitHead]
    congr 1
    have hA : ∀ i, ¬ ("&ved=".data : List Char) <+: ((splitHead "&ved=".data url.data).drop i) :=
      splitHead_no_occur _ hved _
    have hB : (splitHead "&usg=".data (splitHead "&ved=".data url.data))
        <+: splitHead "&ved=".data url.data := splitHead_isPrefix _ _
    rw [splitHead_of_no_occur (no_occur_of_isPrefix hB hA)]
    exact splitHead_idem _ husg _
  · rfl

theorem replaceFuel_single_empty (c : Char) :
    ∀ fuel l, l.length ≤ fuel →
      replaceFuel [c] [] fuel l = l.filter (fun x => decide (x ≠ c)) := by
  intro fuel
  induction fuel with
  | zero =>
    intro l h
    cases l with
    | nil => rfl
    | cons x xs => simp at h
  | succ n ih =>
    intro l h
    cases l with
    | nil => rfl
    | cons x xs =>
      have hlen : xs.length ≤ n := by simpa using h
      by_cases hcx : c = x
      · subst hcx
        have hb : ([c].isPrefixOf (c :: xs)) = true := by simp [List.isPrefixOf]
        rw [show replaceFuel [c] [] (n + 1) (c :: xs) = replaceFuel [c] [] n xs by
          simp [replaceFuel, hb]]
        rw [ih xs hlen, List.filter_cons]
        simp
      · have hb : ([c].isPrefixOf (x :: xs)) = false := by
          simp [List.isPrefixOf, hcx]
        rw [show replaceFuel [c] [] (n + 1) (x :: xs) = x :: replaceFuel [c] [] n xs by
          simp [replaceFuel, hb]]
        rw [ih xs hlen, List.filter_cons]
        simp [Ne.symm hcx]

theorem pyReplace_space_eq_upperNoSpaces (s : String) :
    pyReplace (pyUpper s) " " "" = upperNoSpaces s := by
  show String.mk (replaceFuel [' '] [] (s.data.map Char.toUpper).length (s.data.map Char.toUpper))
    = String.mk ((s.data.map Char.toUpper).filter (fun c => decide (c ≠ ' ')))
  rw [replaceFuel_single_empty ' ' _ _ (Nat.le_refl _)]

/-- C10: every row `save_rating` inserts stores
`stock_ticker = stock_name.upper().replace(" ", "")`, i.e. the canonical
stock name upper-cased with every space removed; in particular
`"Tata Motors"` yields `"TATAMOTORS"`. -/
theorem save_rating_ticker_derivation :
    (∀ db article_id stock_name rating target_price broker entry_date row,
        row ∈ (save_rating db article_id stock_name rating target_price broker entry_date).stock_ratings →
        row ∉ db.stock_ratings →
        row.stock_ticker = upperNoSpaces stock_name)
    ∧ upperNoSpaces "Tata Motors" = "TATAMOTORS" := by
  constructor
  · intro db article_id stock_name rating target_price broker entry_date row hmem hnew
    unfold save_rating at hmem
    by_cases hemp : (db.stock_ratings.filter
        (fun row => tripleMatches row article_id stock_name broker)).isEmpty
    · simp only [hemp, if_true, List.mem_append, List.mem_singleton] at hmem
      rcases hmem with hold | hrow
      · exact absurd hold hnew
      · rw [hrow]
        exact pyReplace_space_eq_upperNoSpaces stock_name
    · simp only [hemp, Bool.false_eq_true, if_false] at hmem
      exact absurd hmem hnew
  · decide

/-- Witness for C10 at a concrete insert. -/
theorem save_rating_ticker_derivation_witness :
    ({ id := 1, article_id := 1, stock_ticker := "TATAMOTORS",
       stock_name := "Tata Motors", rating := "Buy", broker := "Jefferies",
       target_price := some 1200, entry_date := "2025-06-01" } : RatingRow).stock_ticker
      = upperNoSpaces "Tata Motors" :=
  save_rating_ticker_derivation.1 ⟨[], [], [], 1, 1⟩ 1 "Tata Motors" "Buy"
    (some 1200) "Jefferies" "2025-06-01" _ (by decide) (by decide)

/-! ## C3: idempotent article ingestion -/

theorem find?_append_of_none {α : Type} {p : α → Bool} {l1 l2 : List α}
    (h : ∀ a ∈ l1, ¬ p a = true) :
    List.find? p (l1 ++ l2) = List.find? p l2 := by
  induction l1 with
  | nil => rfl
  | cons x xs ih =>
    have hx : p x = false := by
      have := h x (List.mem_cons_self x xs)
      simpa using this
    simp only [List.cons_append, List.find?_cons, hx]
    exact ih (fun a ha => h a (List.mem_cons_of_mem x ha))

/-- C3: on any state holding at most one article row with url `url` (the
unique index guarantees this), calling `save_article` twice with the same
tuple returns a non-`None` id the first time, returns the same id the
second time (the uniqueness violation is resolved by re-reading, not
surfaced as an error), and leaves exactly one stored row with that url. -/
theorem save_article_idempotent (db : DB)
    (title url published_date source raw_content now now2 : String)
    (huniq : db.news_articles.countP (fun a => decide (a.url = url)) ≤ 1) :
    (save_article db title url published_date source raw_content now).1.isSome = true
    ∧ (save_article (save_article db title url published_date source raw_content now).2
        title url published_date source raw_content now2).1
      = (save_article db title url published_date source raw_content now).1
    ∧ (save_article (save_article db title url published_date source raw_content now).2
        title url published_date source raw_content now2).2.news_articles.countP
          (fun a => decide (a.url = url)) = 1 := by
  by_cases hex : db.news_articles.any (fun a => decide (a.url = url)) = true
  · obtain ⟨a0, ha0mem, ha0p⟩ := List.any_eq_true.mp hex
    have hfind : ∃ b, db.news_articles.find? (fun a => decide (a.url = url)) = some b := by
      rw [← Option.isSome_iff_exists, List.find?_isSome]
      exact ⟨a0, ha0mem, ha0p⟩
    obtain ⟨b, hb⟩ := hfind
    have hr1 : save_article db title url published_date source raw_content now
        = (some b.id, db) := by
      unfold save_article
      rw [if_pos hex, hb]
    have hcnt : db.news_articles.countP (fun a => decide (a.url = url)) = 1 := by
      have hpos : 0 < db.news_articles.countP (fun a => decide (a.url = url)) :=
        List.countP_pos_iff.mpr ⟨a0, ha0mem, ha0p⟩
      omega
    refine ⟨by rw [hr1]; rfl, ?_, ?_⟩
    · rw [hr1]
      show (save_article db title url published_date source raw_content now2).1 = some b.id
      unfold save_article
      rw [if_pos hex, hb]
    · rw [hr1]
      show (save_article db title url published_date source raw_content now2).2.news_articles.countP
        (fun a => decide (a.url = url)) = 1
      unfold save_article
      rw [if_pos hex, hb]
      exact hcnt
  · have hnone : ∀ a ∈ db.news_articles, ¬ (fun a => decide (a.url = url)) a = true := by
      intro a ha
      exact fun hpa => hex (List.any_eq_true.mpr ⟨a, ha, hpa⟩)
    have hcnt0 : db.news_articles.countP (fun a => decide (a.url = url)) = 0 :=
      List.countP_eq_zero.mpr hnone
    have hr1 : save_article db title url published_date source raw_content now
        = (some db.next_article_id,
           { db with
             news_articles := db.news_articles ++
               [{ id := db.next_article_id, title := title, url := url,
                  published_date := published_date, source := source,
                  raw_content := raw_content, fetched_at := now }],
             next_article_id := db.next_article_id + 1 }) := by
      unfold save_article
      rw [if_neg hex]
    set row : ArticleRow :=
      { id := db.next_article_id, title := title, url := url,
        published_date := published_date, source := source,
        raw_content := raw_content, fetched_at := now } with hrow
    have hprow : (fun a => decide (a.url = url)) row = true := by simp [hrow]
    have hex2 : (db.news_articles ++ [row]).any (fun a => decide (a.url = url)) = true :=
      List.any_eq_true.mpr ⟨row, by simp, hprow⟩
    have hfind2 : (db.news_articles ++ [row]).find? (fun a => decide (a.url = url))
        = some row := by
      rw [find?_append_of_none hnone]
      simp [hprow]
    refine ⟨by rw [hr1]; rfl, ?_, ?_⟩
    · rw [hr1]
      show (save_article
          { db with news_articles := db.news_articles ++ [row],
                    next_article_id := db.next_article_id + 1 }
          title url published_date source raw_content now2).1 = some db.next_article_id
      unfold save_article
      rw [if_pos hex2, hfind2]
    · rw [hr1]
      show (save_article
          { db with news_articles := db.news_articles ++ [row],
                    next_article_id := db.next_article_id + 1 }
          title url published_date source raw_content now2).2.news_articles.countP
        (fun a => decide (a.url = url)) = 1
      unfold save_article
      rw [if_pos hex2, hfind2]
      show (db.news_articles ++ [row]).countP (fun a => decide (a.url = url)) = 1
      rw [List.countP_append, hcnt0]
      simp [hprow]

/-- Witness for C3 on an initially empty table. -/
theorem save_article_idempotent_witness :
    (save_article ⟨[], [], [], 1, 1⟩ "t" "https://u" "d" "s" "c" "n1").1.isSome = true
    ∧ (save_article (save_article ⟨[], [], [], 1, 1⟩ "t" "https://u" "d" "s" "c" "n1").2
        "t" "https://u" "d" "s" "c" "n2").1
      = (save_article ⟨[], [], [], 1, 1⟩ "t" "https://u" "d" "s" "c" "n1").1
    ∧ (save_article (save_article ⟨[], [], [], 1, 1⟩ "t" "https://u" "d" "s" "c" "n1").2
        "t" "https://u" "d" "s" "c" "n2").2.news_articles.countP
          (fun a => decide (a.url = "https://u")) = 1 :=
  save_article_idempotent ⟨[], [], [], 1, 1⟩ "t" "https://u" "d" "s" "c" "n1" "n2"
    (by decide)

theorem save_rating_step_unique (db : DB) (article_id : Nat)
    (stock_name rating : String) (target_price : Option Rat)
    (broker entry_date : String) (h : RatingUnique db.stock_ratings) :
    RatingUnique (save_rating db article_id stock_name rating target_price
      broker entry_date).stock_ratings := by
  intro a' s' b'
  unfold save_rating
  by_cases hemp : (db.stock_ratings.filter
      (fun row => tripleMatches row article_id stock_name broker)).isEmpty
  · simp only [hemp, if_true, List.countP_append]
    set newRow : RatingRow :=
      { id := db.next_rating_id, article_id := article_id,
        stock_ticker := pyReplace (pyUpper stock_name) " " "",
        stock_name := stock_name, rating := rating, broker := broker,
        target_price := target_price, entry_date := entry_date } with hnew
    by_cases hmatch : tripleMatches newRow a' s' b' = true
    · have htrip : a' = article_id ∧ s' = stock_name ∧ b' = broker := by
        unfold tripleMatches at hmatch
        simp only [hnew, Bool.and_eq_true, decide_eq_true_eq] at hmatch
        exact ⟨hmatch.1.1.symm, hmatch.1.2.symm, hmatch.2.symm⟩
      obtain ⟨rfl, rfl, rfl⟩ := htrip
      have hzero : db.stock_ratings.countP
          (fun row => tripleMatches row a' s' b') = 0 := by
        rw [List.countP_eq_length_filter]
        simp only [List.isEmpty_iff] at hemp
        rw [hemp]
        rfl
      rw [hzero]
      simp [hmatch]
    · have : List.countP (fun row => tripleMatches row a' s' b') [newRow] = 0 := by
        simp [List.countP_cons, hmatch]
      rw [this]
      simpa using h a' s' b'
  · simp only [hemp, Bool.false_eq_true, if_false]
    exact h a' s' b'

/-- C4: `save_rating` is a no-op when a row already matches the triple,
inserts (appends exactly one row) when none does, and therefore the
"at most one row per `(article_id, stock_name, broker)`" invariant is
preserved by every sequence of `save_rating` calls from a state that
satisfies it. -/
theorem save_rating_unique_invariant :
    (∀ db article_id stock_name rating target_price broker entry_date,
        (∃ row ∈ db.stock_ratings, tripleMatches row article_id stock_name broker = true) →
        save_rating db article_id stock_name rating target_price broker entry_date = db)
    ∧ (∀ db article_id stock_name rating target_price broker entry_date,
        (∀ row ∈ db.stock_ratings, tripleMatches row article_id stock_name broker = false) →
        ∃ row, (save_rating db article_id stock_name rating target_price broker
          entry_date).stock_ratings = db.stock_ratings ++ [row])
    ∧ (∀ db reqs, RatingUnique db.stock_ratings →
        RatingUnique (save_ratings db reqs).stock_ratings) := by
  refine ⟨?_, ?_, ?_⟩
  · intro db article_id stock_name rating target_price broker entry_date hex
    unfold save_rating
    have : (db.stock_ratings.filter
        (fun row => tripleMatches row article_id stock_name broker)).isEmpty = false := by
      obtain ⟨row, hmem, hrow⟩ := hex
      rw [List.isEmpty_eq_false_iff_exists_mem]
      exact ⟨row, List.mem_filter.mpr ⟨hmem, hrow⟩⟩
    simp [this]
  · intro db article_id stock_name rating target_price broker entry_date hnone
    unfold save_rating
    have : (db.stock_ratings.filter
        (fun row => tripleMatches row article_id stock_name broker)).isEmpty = true := by
      rw [List.isEmpty_iff, List.filter_eq_nil_iff]
      intro row hmem
      simp [hnone row hmem]
    simp only [this, if_true]
    exact ⟨_, rfl⟩
  · intro db reqs
    induction reqs generalizing db with
    | nil => exact fun h => h
    | cons q qs ih =>
      intro h
      exact ih _ (save_rating_step_unique db q.article_id q.stock_name q.rating
        q.target_price q.broker q.entry_date h)

/-- Witness for C4: the no-op branch on a state already holding the row. -/
theorem save_rating_unique_invariant_witness :
    save_rating
      ⟨[], [⟨1, 1, "TATAMOTORS", "Tata Motors", "Buy", "Jefferies", some 1200, "2025-06-01"⟩],
       [], 2, 2⟩
      1 "Tata Motors" "Buy" (some 1200) "Jefferies" "2025-06-02"
    = ⟨[], [⟨1, 1, "TATAMOTORS", "Tata Motors", "Buy", "Jefferies", some 1200, "2025-06-01"⟩],
       [], 2, 2⟩ :=
  save_rating_unique_invariant.1
    ⟨[], [⟨1, 1, "TATAMOTORS", "Tata Motors", "Buy", "Jefferies", some 1200, "2025-06-01"⟩],
     [], 2, 2⟩
    1 "Tata Motors" "Buy" (some 1200) "Jefferies" "2025-06-02" (by decide)

/-! ## C8: validator precision -/

theorem process_fact_db_eq (db : DB) (search : String → Except Unit (List KnownStock))
    (art_id : Nat) (broker_name : String) (r : StockRating) :
    (process_fact db search art_id broker_name r).1 = db := by
  unfold process_fact
  dsimp only
  split <;> rfl

theorem run_facts_db_eq (search : String → Except Unit (List KnownStock))
    (art_id : Nat) (broker_name : String) :
    ∀ (l : List StockRating) (db : DB), (run_facts db search art_id broker_name l).1 = db := by
  intro l
  induction l with
  | nil => intro db; rfl
  | cons r rs ih =>
    intro db
    unfold run_facts
    rcases hpf : process_fact db search art_id broker_name r with ⟨db1, added, err⟩
    have hdb1 : db1 = db := by
      have := process_fact_db_eq db search art_id broker_name r
      rw [hpf] at this
      exact this
    cases err with
    | some e => simpa using hdb1
    | none => simpa using hdb1 ▸ ih db1

theorem save_article_ratings_eq (db : DB)
    (title url published_date source raw_content now : String) :
    (save_article db title url published_date source raw_content now).2.stock_ratings
      = db.stock_ratings := by
  unfold save_article
  split
  · split <;> rfl
  · rfl

theorem process_article_ratings_eq (db : DB)
    (analyze : Article → String → List StockRating)
    (search : String → Except Unit (List KnownStock)) (broker_name now : String)
    (art : Article) :
    (process_article db analyze search broker_name now art).1.stock_ratings
      = db.stock_ratings := by
  unfold process_article
  rcases hsa : save_article db art.title art.url art.published_date art.source art.desc now
    with ⟨oid, db1⟩
  have hr1 : db1.stock_ratings = db.stock_ratings := by
    have := save_article_ratings_eq db art.title art.url art.published_date art.source
      art.desc now
    rw [hsa] at this
    exact this
  cases oid with
  | none => simpa using hr1
  | some art_id =>
    dsimp only
    split
    · rw [run_facts_db_eq]
      exact hr1
    · exact hr1

theorem run_articles_ratings_eq (analyze : Article → String → List StockRating)
    (search : String → Except Unit (List KnownStock)) (broker_name now : String) :
    ∀ (arts : List Article) (db : DB),
      (run_articles db analyze search broker_name now arts).1.stock_ratings
        = db.stock_ratings := by
  intro arts
  induction arts with
  | nil => intro db; rfl
  | cons art rest ih =>
    intro db
    unfold run_articles
    rcases hpa : process_article db analyze search broker_name now art
      with ⟨db1, n, calls, err⟩
    have hr1 : db1.stock_ratings = db.stock_ratings := by
      have := process_article_ratings_eq db analyze search broker_name now art
      rw [hpa] at this
      exact this
    cases err with
    | some e => simpa using hr1
    | none =>
      dsimp only
      rw [ih db1]
      exact hr1

theorem run_brokers_ratings_eq (fetch : String → List String → Nat → List Article)
    (analyze : Article → String → List StockRating)
    (search : String → Except Unit (List KnownStock)) (now : String) :
    ∀ (bs : List (String × List String)) (db : DB),
      (run_brokers fetch analyze search now db bs).db.stock_ratings = db.stock_ratings := by
  intro bs
  induction bs with
  | nil => intro db; rfl
  | cons b rest ih =>
    intro db
    unfold run_brokers
    dsimp only
    rcases hra : run_articles db analyze search b.1 now (fetch b.1 b.2 days_to_fetch)
      with ⟨db1, n, calls, err⟩
    have hr1 : db1.stock_ratings = db.stock_ratings := by
      have := run_articles_ratings_eq analyze search b.1 now (fetch b.1 b.2 days_to_fetch) db
      rw [hra] at this
      exact this
    cases err with
    | some e =>
      dsimp only
      exact hr1
    | none =>
      dsimp only
      rw [ih db1]
      exact hr1

/-- C8: a fact whose raw stock name finds no match in the `known_stocks`
full-text search (over the punctuation-stripped quoted phrase) is dropped
without storing anything and without raising: `process_fact` leaves the
state unchanged.  Moreover `run_job` never adds any `stock_ratings` row at
all (the save call raises `AttributeError` first), so no raw unvalidated
extraction is ever stored. -/
theorem validator_precision :
    (∀ db search art_id broker_name (r : StockRating) raw,
        r.stock_name = .str raw →
        search (search_term (clean_stock_name raw)) = .ok [] →
        process_fact db search art_id broker_name r = (db, false, none))
    ∧ (∀ fetch analyze search now db,
        (run_job fetch analyze search now db).db.stock_ratings = db.stock_ratings) := by
  constructor
  · intro db search art_id broker_name r raw hname hsearch
    unfold process_fact
    rw [hname]
    dsimp only
    rw [hsearch]
  · intro fetch analyze search now db
    exact run_brokers_ratings_eq fetch analyze search now brokers db

/-- Witness for C8: the spec's own example, raw name
"Generic Hotels Sector" with no matching Source Store row. -/
theorem validator_precision_witness :
    process_fact ⟨[], [], [⟨"TATAMOTORS", "Tata Motors", ""⟩], 1, 1⟩
      (fun _ => .ok []) 1 "Jefferies" ⟨.str "Generic Hotels Sector", .str "Buy", .null⟩
    = (⟨[], [], [⟨"TATAMOTORS", "Tata Motors", ""⟩], 1, 1⟩, false, none) :=
  validator_precision.1 _ _ 1 "Jefferies" _ "Generic Hotels Sector" rfl rfl

/-- C1: on the end-to-end scenario the pipeline saves the article, but
persists no Rating row at all and aborts with `AttributeError` (the
`save_rating` call site evaluates `r.currency`, which `StockRating` does
not define; `save_rating` also has no `currency` parameter), rather than
persisting the one expected Rating row. -/
theorem run_job_scenario_aborts_without_rating :
    scenarioRun.db.news_articles.length = 1
    ∧ scenarioRun.db.stock_ratings = []
    ∧ scenarioRun.new_ratings_count = 0
    ∧ scenarioRun.err = some PyErr.attributeError := by
  refine ⟨by decide, by decide, by decide, by decide⟩

/-- C2: a failure at one fact's persistence step is not isolated: the
`AttributeError` raised at the `save_rating` call site (`r.currency`)
propagates out of `run_job`, so the run aborts at the first Jefferies fact
— the later broker "Goldman Sachs" is never processed (its article is
never ingested) and the terminal summary state is never reached. -/
theorem run_job_fact_failure_not_isolated :
    isolationRun.err = some PyErr.attributeError
    ∧ isolationRun.analyzed = [(1, "Jefferies")]
    ∧ isolationRun.db.news_articles.length = 1
    ∧ isolationRun.new_ratings_count = 0 := by
  refine ⟨by decide, by decide, by decide, by decide⟩

/-- C9: because the first run aborted before inserting any rating, the
"ratings already exist for (article, broker)" guard finds nothing on the
second run: the same `(article_id, broker)` pair is passed to the analyzer
again (extraction is re-invoked, not skipped), and the second run again
stores zero ratings and aborts. -/
theorem run_job_rerun_reanalyzes :
    scenarioRun2.analyzed = [(1, "Jefferies")]
    ∧ scenarioRun2.db.stock_ratings = []
    ∧ scenarioRun2.db.news_articles.length = 1
    ∧ scenarioRun2.err = some PyErr.attributeError := by
  refine ⟨by decide, by decide, by decide, by decide⟩

/-! ## C5: extraction fallback and totality -/

/-- C5: (1) when the primary's content is falsy (the Groq call raised,
had no key, or returned nothing), the extraction result is exactly the
processing of the secondary provider's response to
`get_prompt text broker_name` — the identical payload the primary oracle
received — so the secondary is invoked and its response determines the
output; (2) when the primary's content is non-falsy, the result is the
processing of the primary's response (the secondary is not consulted);
(3) if both contents are falsy, the result is `[]`; (4) a `json.loads`
that fails (malformed / non-JSON response after stripping the markdown
fences) yields `[]` — treated as empty output, not raised (every raise
point of the `try` body is routed to `[]` in the model, so
`analyze_article` is a total function). -/
theorem analyze_article_fallback_total
    (groq openai : String → Option String)
    (json_loads : String → Option JValue) (title desc broker_name : String) :
    (pyFalsy ((groq (get_prompt ("Title: " ++ title ++ "\n" ++ "Description: " ++ desc)
          broker_name)).map pyStrip) = true →
      analyze_article groq openai json_loads title desc broker_name
        = parse_response json_loads
            ((openai (get_prompt ("Title: " ++ title ++ "\n" ++ "Description: " ++ desc)
              broker_name)).map pyStrip))
    ∧ (pyFalsy ((groq (get_prompt ("Title: " ++ title ++ "\n" ++ "Description: " ++ desc)
          broker_name)).map pyStrip) = false →
      analyze_article groq openai json_loads title desc broker_name
        = parse_response json_loads
            ((groq (get_prompt ("Title: " ++ title ++ "\n" ++ "Description: " ++ desc)
              broker_name)).map pyStrip))
    ∧ (pyFalsy ((groq (get_prompt ("Title: " ++ title ++ "\n" ++ "Description: " ++ desc)
          broker_name)).map pyStrip) = true →
       pyFalsy ((openai (get_prompt ("Title: " ++ title ++ "\n" ++ "Description: " ++ desc)
          broker_name)).map pyStrip) = true →
       analyze_article groq openai json_loads title desc broker_name = [])
    ∧ ((∀ s, json_loads s = none) →
       analyze_article groq openai json_loads title desc broker_name = []) := by
  refine ⟨?_, ?_, ?_, ?_⟩
  · intro h1
    simp only [analyze_article, analyze_with_groq, analyze_with_openai, parse_response,
      h1, if_true]
  · intro h1
    simp only [analyze_article, analyze_with_groq, analyze_with_openai, parse_response,
      h1, Bool.false_eq_true, if_false]
  · intro h1 h2
    simp only [analyze_article, analyze_with_groq, analyze_with_openai, h1, if_true, h2]
  · intro hjl
    simp only [analyze_article]
    split <;> split <;> first | rfl | simp_all [hjl]

/-- Witness for C5 exercising the fallback-success path: the primary
fails (`none`), the secondary answers a fenced JSON list at the identical
prompt payload, and the extractor returns the parsed fact — so the
secondary really is invoked and its response is used. -/
theorem analyze_article_fallback_total_witness :
    analyze_article (fun _ => none) (fun _ => some c5Response) c5JsonLoads
      "Jefferies maintains Buy on Tata Motors, target 1200" "" "Jefferies"
      = [⟨.str "Tata Motors", .str "Buy", .num 1200⟩] := by
  have h := (analyze_article_fallback_total (fun _ => none) (fun _ => some c5Response)
    c5JsonLoads "Jefferies maintains Buy on Tata Motors, target 1200" "" "Jefferies").1
    rfl
  rw [h]
  rfl

/-- Counterexample to C6 as stated: with a present but unparseable date
string ("last week", the parse oracle returns `none`), the retained
article's published date is the raw provider string, not "now"
(`iso now = "2025-06-01T00:00:00"` here, with `δ = String`, `iso = id`). -/
theorem fetch_news_date_fallback_counterexample :
    fetch_news_result (fun _ => (none : Option String)) "2025-06-01T00:00:00"
      (fun d => d) "Jefferies" [] [] c6Result
      = .ok (some ⟨"Jefferies sees upside", some "https://x/y", "last week",
                   "Example", ""⟩,
             [some "https://x/y"], [some "Jefferies sees upside"])
    ∧ ("last week" : String) ≠ "2025-06-01T00:00:00" := by
  refine ⟨rfl, by decide⟩

theorem fetch_news_result_eq_kept {δ : Type} (parse : String → Option δ)
    (now : δ) (iso : δ → String) (broker_name : String)
    (seen_urls seen_titles : List (Option String)) (res : SearchResult) :
    fetch_news_result parse now iso broker_name seen_urls seen_titles res
      = fetch_news_kept (published_date_of parse now iso res.date) broker_name
          seen_urls seen_titles res := rfl

theorem fetch_news_kept_shape (pd1 pd2 : String) (broker_name : String)
    (seen_urls seen_titles : List (Option String)) (res : SearchResult) :
    Except.map (fun x => (Option.map eraseDate x.1, x.2))
        (fetch_news_kept pd1 broker_name seen_urls seen_titles res)
      = Except.map (fun x => (Option.map eraseDate x.1, x.2))
        (fetch_news_kept pd2 broker_name seen_urls seen_titles res) := by
  unfold fetch_news_kept
  dsimp only
  repeat' split
  all_goals rfl

/-- C6 corrected: the published date falls back to "now" exactly when the
provider date string is missing or empty; when the string is present and
parses, the parsed instant is used; when it is present and parsing fails,
the published date is the raw string itself (`str(raw_date)`), not "now";
and in every case retention (and the seen-set bookkeeping) is independent
of the date parser — a result is never dropped because its date could not
be parsed. -/
theorem fetch_news_date_fallback {δ δ2 : Type}
    (parse : String → Option δ) (now : δ) (iso : δ → String)
    (parse2 : String → Option δ2) (now2 : δ2) (iso2 : δ2 → String)
    (broker_name : String) (seen_urls seen_titles : List (Option String))
    (res : SearchResult) :
    (optTruthy res.date = false → published_date_of parse now iso res.date = iso now)
    ∧ (∀ s d, res.date = some s → s ≠ "" → parse s = some d →
        published_date_of parse now iso res.date = iso d)
    ∧ (∀ s, res.date = some s → s ≠ "" → parse s = none →
        published_date_of parse now iso res.date = s)
    ∧ (Except.map (fun x => (x.1.map eraseDate, x.2))
          (fetch_news_result parse now iso broker_name seen_urls seen_titles res)
        = Except.map (fun x => (x.1.map eraseDate, x.2))
          (fetch_news_result parse2 now2 iso2 broker_name seen_urls seen_titles res)) := by
  refine ⟨?_, ?_, ?_, ?_⟩
  · intro h
    simp [published_date_of, h]
  · intro s d hdate hs hparse
    simp [published_date_of, hdate, hs, hparse, optTruthy]
  · intro s hdate hs hparse
    simp [published_date_of, hdate, hs, hparse, optTruthy, pyStr]
  · rw [fetch_news_result_eq_kept, fetch_news_result_eq_kept]
    exact fetch_news_kept_shape _ _ broker_name seen_urls seen_titles res

/-- Witness for C6 at the counterexample input: the parse-failure branch
keeps the raw date string. -/
theorem fetch_news_date_fallback_witness :
    published_date_of (fun _ => (none : Option String)) "2025-06-01T00:00:00"
      (fun d => d) c6Result.date = "last week" :=
  (fetch_news_date_fallback (fun _ => (none : Option String)) "2025-06-01T00:00:00"
    (fun d => d) (fun _ => (none : Option String)) "2025-06-01T00:00:00" (fun d => d)
    "Jefferies" [] [] c6Result).2.2.1 "last week" rfl (by decide) rfl
